import Mathlib

/-!
Verification of the automation-cycle orchestrator of the `flashes` repository.

The development is a shallow embedding of the orchestration core:
* `Database` operations from `src/models/Database.js` (the sqlite tables
  `posts` and `processed_news` become in-memory lists; the `UNIQUE` key on
  `news_url` is realised by `INSERT OR IGNORE` becoming a guarded append);
* the rate limiter (`canPost`, the `lastPostTime` assignment) and
  `postToAllPlatforms` from `SocialMediaService`;
* `publishWithRetry`, `createAndPublishPost`, `getUniqueNewsItem` and
  `runAutomationCycle` from `src/services/AutomationService.js`.

External collaborators (news fetch, LLM, image rendering, the platform HTTP
calls, and the points where a sqlite call may reject) are modelled as an
environment record: each call site that can throw in JavaScript is an
`Except String` value or an `Option String` error injection, and each
per-attempt collaborator response is a function of the attempt index.
-/

namespace Flashes

/-- Platform tag. The repository configures exactly two destinations,
`facebook` and `instagram` (`SocialMediaService`). -/
inductive Platform where
  | facebook
  | instagram
deriving DecidableEq, Repr

/-- The string the JavaScript code stores in the `platform` field of a
result object (the `facebook` / `instagram` tag). -/
def Platform.name : Platform → String
  | .facebook => "facebook"
  | .instagram => "instagram"

/-- A per-platform publish result object, with the fields the orchestrator
reads: `success`, `platform`, `postId` (present on success), `error`
(present on failure).  (`postToFacebook` / `postToInstagram` /
`mockPost` return objects of this shape.) -/
structure Outcome where
  success : Bool
  platform : Platform
  postId : Option String
  error : Option String
deriving DecidableEq, Repr

/-- A normalized news item as consumed by the orchestrator: `url` is the
natural key checked against `processed_news`, `title` is persisted. -/
structure NewsItem where
  url : String
  title : String
deriving DecidableEq, Repr

/-- Generated social-media copy (`LLMService.generateSocialMediaContent`
result shape as read by `createAndPublishPost`). -/
structure Content where
  shortCaption : String
  longDescription : String
  hashtags : List String
deriving DecidableEq, Repr

/-- A row of the sqlite `posts` table
(`Database.createTables` in `src/models/Database.js`):
`status` defaults to `pending`, `content_hash` carries a UNIQUE index. -/
structure PostRow where
  id : Nat
  title : String
  content : String
  hashtags : String
  imagePath : String
  newsUrl : String
  platform : String
  status : String
  errorMessage : Option String
  contentHash : String
deriving DecidableEq, Repr

/-- A row of the sqlite `processed_news` table: `news_url` (UNIQUE) and
`title`. -/
structure ProcessedNewsRow where
  newsUrl : String
  title : String
deriving DecidableEq, Repr

/-- In-memory model of the sqlite database of `src/models/Database.js`. -/
structure DB where
  posts : List PostRow
  processedNews : List ProcessedNewsRow
deriving DecidableEq, Repr

/-- Model of `Database.isNewsProcessed(newsUrl)`:
`SELECT id FROM processed_news WHERE news_url = ?`, truthiness of the row. -/
def isNewsProcessed (db : DB) (newsUrl : String) : Bool :=
  db.processedNews.any fun r => r.newsUrl = newsUrl

/-- Model of `Database.isContentDuplicate(contentHash)`:
`SELECT id FROM posts WHERE content_hash = ?`, truthiness of the row. -/
def isContentDuplicate (db : DB) (contentHash : String) : Bool :=
  db.posts.any fun r => r.contentHash = contentHash

/-- Model of `Database.markNewsAsProcessed(newsUrl, title)`:
`INSERT OR IGNORE INTO processed_news (news_url, title) VALUES (?, ?)`.
The UNIQUE constraint on `news_url` makes the insert a no-op when a row
with that url already exists. -/
def markNewsAsProcessed (db : DB) (newsUrl : String) (title : String) : DB :=
  if isNewsProcessed db newsUrl then db
  else { db with processedNews := db.processedNews ++ [⟨newsUrl, title⟩] }

/-- Fields passed to `Database.insertPost` by `createAndPublishPost`. -/
structure PostFields where
  title : String
  content : String
  hashtags : String
  imagePath : String
  newsUrl : String
  platform : String
  contentHash : String
deriving DecidableEq, Repr

/-- Model of `Database.insertPost(postData)`: INSERT into `posts`; `id` is
AUTOINCREMENT (modelled as one past the current row count), `status`
defaults to `pending`, `error_message` to NULL; resolves the new id. -/
def insertPost (db : DB) (p : PostFields) : Nat × DB :=
  let id := db.posts.length + 1
  (id, { db with posts := db.posts ++
    [{ id := id, title := p.title, content := p.content,
       hashtags := p.hashtags, imagePath := p.imagePath,
       newsUrl := p.newsUrl, platform := p.platform,
       status := "pending", errorMessage := none,
       contentHash := p.contentHash }] })

/-- Model of `Database.updatePostStatus(id, status, errorMessage)`:
`UPDATE posts SET status = ?, error_message = ? WHERE id = ?`. -/
def updatePostStatus (db : DB) (id : Nat) (status : String)
    (errorMessage : Option String) : DB :=
  { db with posts := db.posts.map fun r =>
      if r.id = id then { r with status := status, errorMessage := errorMessage }
      else r }

/-- Number of `processed_news` rows whose `news_url` equals `newsUrl`. -/
def processedNewsCount (db : DB) (newsUrl : String) : Nat :=
  (db.processedNews.filter fun r => r.newsUrl = newsUrl).length

/-! ### Rate limiter of `SocialMediaService` -/

/-- The constant `this.minInterval = 60 * 60 * 1000` — one hour in ms. -/
def minInterval : Nat := 60 * 60 * 1000

/-- The `lastPostTime` map of `SocialMediaService` (initialised to
`{facebook: 0, instagram: 0}`), in milliseconds since the epoch. -/
structure SMState where
  lastPostTime : Platform → Nat

/-- Model of `canPost(platform)`:
`timeSinceLastPost = Date.now() - lastPost; return timeSinceLastPost >= minInterval`,
with `now` standing for `Date.now()`. -/
def canPost (st : SMState) (platform : Platform) (now : Nat) : Bool :=
  minInterval ≤ now - st.lastPostTime platform

/-- The `this.lastPostTime[platform] = Date.now()` assignment performed by
`postToFacebook` / `postToInstagram` immediately after a successful post
(`now` standing for that `Date.now()`). -/
def recordPost (st : SMState) (platform : Platform) (now : Nat) : SMState :=
  ⟨fun q => if q = platform then now else st.lastPostTime q⟩

/-! ### `publishWithRetry` (`AutomationService`) and
`postToAllPlatforms` (`SocialMediaService`) -/

/-- The constant `this.maxRetries = 3`. -/
def maxRetries : Nat := 3

/-- Model of `postToAllPlatforms(content, imagePath)`: invokes `postToFacebook`,
waits, then invokes `postToInstagram`, and returns the two result objects
in that order.  Both platform methods catch internally, so the round
itself supplies one `Outcome` per platform; the second component records
which platform clients the round invoked. -/
def postToAllPlatforms (fbResult igResult : Outcome) :
    List Outcome × List Platform :=
  ([fbResult, igResult], [Platform.facebook, Platform.instagram])

/-- The failed-outcome entry built by the retries-exhausted `catch` arm of
`publishWithRetry`:
`{ success: false, platform: <p>, error: error.message }`. -/
def catchOutcome (p : Platform) (msg : String) : Outcome :=
  { success := false, platform := p, postId := none, error := some msg }

/-- One `while (attempt < this.maxRetries)` loop of `publishWithRetry`,
written as fuel recursion with `fuel = maxRetries - attempt`.
`round i` is the result of the i-th `postToAllPlatforms` (or `mockPost`)
call: `.ok (fb, ig)` when the call resolves with the two platform result
objects, `.error e` when it rejects.  The trace accumulates, per attempt
index, which platform clients were invoked. -/
def publishLoop (round : Nat → Except String (Outcome × Outcome)) :
    Nat → Nat → List Outcome → List (Nat × Platform) →
    List Outcome × List (Nat × Platform)
  | _, 0, results, trace => (results, trace)
  | attempt, fuel + 1, prevResults, trace =>
    match round attempt with
    | .ok (fb, ig) =>
      let (results, invoked) := postToAllPlatforms fb ig
      let trace := trace ++ invoked.map fun p => (attempt, p)
      let failures := results.filter fun r => !r.success
      if failures.isEmpty then (results, trace)
      else if attempt < maxRetries - 1 then
        publishLoop round (attempt + 1) fuel results trace
      else (results, trace)
    | .error e =>
      if attempt < maxRetries - 1 then
        publishLoop round (attempt + 1) fuel prevResults trace
      else
        ([catchOutcome Platform.facebook e, catchOutcome Platform.instagram e],
         trace)

/-- Model of `publishWithRetry(content, imagePath)`: starts the loop at
`attempt = 0` with `results = []`; returns the outcome list together with
the platform-invocation trace. -/
def publishWithRetry (round : Nat → Except String (Outcome × Outcome)) :
    List Outcome × List (Nat × Platform) :=
  publishLoop round 0 maxRetries [] []

/-! ### The cycle environment -/

/-- Collaborator responses of one cycle.  Every JavaScript call site that can
throw is an `Except String` value (the `.error` case is the thrown
message) or an `Option String` error injection; call sites consulted once
per attempt are functions of the attempt index. -/
structure CycleEnv where
  /-- Value of `Date.now()` at cycle start (ms), stored in `lastRunTime`. -/
  now : Nat
  /-- Result of `getTodayPostCount()`: the length of `database.getRecentPosts(24)`,
  or the rejection of that sqlite call. -/
  recentCount : Except String Nat
  /-- The i-th `newsService.getRandomNews()` call inside
  `getUniqueNewsItem`. -/
  newsFetch : Nat → Except String NewsItem
  /-- Result of `llmService.generateSocialMediaContent(newsItem)`. -/
  genContent : Except String Content
  /-- The md5 hex digest `generateContentHash` computes over
  `shortCaption + longDescription` (the digest function itself is opaque
  to the orchestrator, so it is a parameter of the model). -/
  contentHashFn : String → String
  /-- Result of `llmService.generateImageText(newsItem)`. -/
  genImageText : Except String String
  /-- Result of `imageService.createPostImage(newsItem, imageTextData)`: the image
  path. -/
  createImage : Except String String
  /-- When `some e`: `database.insertPost` rejects with message `e`. -/
  insertPostErr : Option String
  /-- The i-th round of `publishWithRetry`: the resolution of
  `postToAllPlatforms` (or `mockPost`) with the facebook and instagram
  result objects, or its rejection. -/
  publishRound : Nat → Except String (Outcome × Outcome)
  /-- When `some e`: the post-publish `database.updatePostStatus(postId,
  status, ...)` rejects with message `e` (leaving the row unchanged). -/
  updateStatusErr : Option String
  /-- When `some e`: `database.markNewsAsProcessed` rejects with `e`. -/
  markProcessedErr : Option String
  /-- When `some e`: the failed-status `database.updatePostStatus` call
  inside the `catch` of `createAndPublishPost` rejects with `e` — the one
  exception that escapes `createAndPublishPost` to the cycle boundary. -/
  updateFailedErr : Option String

/-- The configured `this.maxPostsPerDay` (env default 10). -/
def maxPostsPerDay : Nat := 10

/-- Process-wide mutable state of `AutomationService`: the `isRunning`
flag, `lastRunTime`, the `stats` counters, and the database. -/
structure ServiceState where
  isRunning : Bool
  lastRunTime : Option Nat
  totalRuns : Nat
  successfulPosts : Nat
  failedPosts : Nat
  duplicatesSkipped : Nat
  db : DB

/-- The state of a freshly constructed `AutomationService` over a freshly
initialised (empty) database. -/
def initialState : ServiceState :=
  { isRunning := false, lastRunTime := none, totalRuns := 0,
    successfulPosts := 0, failedPosts := 0, duplicatesSkipped := 0,
    db := ⟨[], []⟩ }

/-! ### `getUniqueNewsItem` -/

/-- The constant `maxAttempts` inside `getUniqueNewsItem`. -/
def maxSelectionAttempts : Nat := 10

/-- The `while (attempts < maxAttempts)` loop of `getUniqueNewsItem` as
fuel recursion (`fuel = maxAttempts - attempts`): each iteration performs
one `getRandomNews` call (index `i`); a rejection or an
already-processed url increments `attempts` and loops; an unprocessed
item is returned; exhaustion yields `null`. -/
def selectLoop (fetch : Nat → Except String NewsItem) (db : DB) :
    Nat → Nat → Option NewsItem
  | _, 0 => none
  | i, fuel + 1 =>
    match fetch i with
    | .error _ => selectLoop fetch db (i + 1) fuel
    | .ok item =>
      if isNewsProcessed db item.url then selectLoop fetch db (i + 1) fuel
      else some item

/-- Model of `getUniqueNewsItem()`: starts the selection loop at attempt 0. -/
def getUniqueNewsItem (fetch : Nat → Except String NewsItem) (db : DB) :
    Option NewsItem :=
  selectLoop fetch db 0 maxSelectionAttempts

/-! ### `createAndPublishPost` -/

/-- How `createAndPublishPost` finishes: `returned success` for a normal
return `{success: ...}` (the `catch` arm returns `{success: false}`),
`escaped msg` when an exception escapes it — which happens exactly when
the failed-status `updatePostStatus` inside its `catch` itself
rejects. -/
inductive CapResult where
  | returned (success : Bool)
  | escaped (msg : String)
deriving DecidableEq, Repr

/-- The string `errorMessages || null` computed by `createAndPublishPost`
from the failed outcomes: `platform + ": " + error` joined by a semicolon,
with the empty join becoming NULL. -/
def errorMessages (results : List Outcome) : Option String :=
  let s := String.intercalate "; "
    ((results.filter fun r => !r.success).map fun r =>
      r.platform.name ++ ": " ++ r.error.getD "undefined")
  if s = "" then none else some s

/-- The `catch` arm of `createAndPublishPost` when `postId` is non-null:
`updatePostStatus(postId, failed, error.message)` and the return of
`{success: false}`; if that update itself rejects, the second exception
escapes to the cycle boundary. -/
def capCatch (env : CycleEnv) (s : ServiceState) (postId : Nat)
    (msg : String) : ServiceState × CapResult :=
  match env.updateFailedErr with
  | some e2 => (s, .escaped e2)
  | none =>
    ({ s with db := updatePostStatus s.db postId "failed" (some msg) },
     .returned false)

/-- Model of `createAndPublishPost(newsItem)`: generate content, hash it, bail out
on duplicate content (counting `duplicatesSkipped`), render the image,
insert the `pending` post row, run `publishWithRetry`, derive the
aggregate status (`published` iff every outcome succeeded, else
`partial_failure`), update the row, mark the news url processed.  Any
rejection before the insert leaves `postId` null, so its `catch` just
returns `{success: false}`; a rejection after the insert goes through
`capCatch`. -/
def createAndPublishPost (env : CycleEnv) (s : ServiceState)
    (item : NewsItem) : ServiceState × CapResult :=
  match env.genContent with
  | .error _ => (s, .returned false)
  | .ok content =>
    let contentHash :=
      env.contentHashFn (content.shortCaption ++ content.longDescription)
    if isContentDuplicate s.db contentHash then
      ({ s with duplicatesSkipped := s.duplicatesSkipped + 1 },
       .returned false)
    else
      match env.genImageText with
      | .error _ => (s, .returned false)
      | .ok _ =>
        match env.createImage with
        | .error _ => (s, .returned false)
        | .ok imagePath =>
          match env.insertPostErr with
          | some _ => (s, .returned false)
          | none =>
            let (postId, db1) := insertPost s.db
              { title := item.title, content := content.longDescription,
                hashtags := " ".intercalate content.hashtags,
                imagePath := imagePath, newsUrl := item.url,
                platform := "both", contentHash := contentHash }
            let s1 := { s with db := db1 }
            let publishResults := (publishWithRetry env.publishRound).1
            let allSuccessful := publishResults.all fun r => r.success
            let status := if allSuccessful then "published" else "partial_failure"
            match env.updateStatusErr with
            | some e => capCatch env s1 postId e
            | none =>
              let db2 := updatePostStatus s1.db postId status
                (errorMessages publishResults)
              let s2 := { s1 with db := db2 }
              match env.markProcessedErr with
              | some e => capCatch env s2 postId e
              | none =>
                let db3 := markNewsAsProcessed s2.db item.url item.title
                let s3 := { s2 with db := db3 }
                (s3, .returned allSuccessful)

/-! ### `runAutomationCycle` -/

/-- The mutations `runAutomationCycle` performs after passing the
`isRunning` guard and before its `try` block:
`isRunning = true; lastRunTime = new Date(); stats.totalRuns++`. -/
def beginCycle (env : CycleEnv) (s : ServiceState) : ServiceState :=
  { s with isRunning := true, lastRunTime := some env.now,
           totalRuns := s.totalRuns + 1 }

/-- The `try` block of `runAutomationCycle`: daily-limit check, news
selection, `createAndPublishPost`, and the success/failure counter bump.
The second component is the exception escaping the block, if any; the
first is the state at the moment the block ends (normally or by throw). -/
def cycleBody (env : CycleEnv) (s : ServiceState) :
    ServiceState × Option String :=
  match env.recentCount with
  | .error e => (s, some e)
  | .ok todaysPosts =>
    if maxPostsPerDay ≤ todaysPosts then (s, none)
    else
      match getUniqueNewsItem env.newsFetch s.db with
      | none => (s, none)
      | some item =>
        match createAndPublishPost env s item with
        | (s1, .escaped e) => (s1, some e)
        | (s1, .returned success) =>
          if success then
            ({ s1 with successfulPosts := s1.successfulPosts + 1 }, none)
          else
            ({ s1 with failedPosts := s1.failedPosts + 1 }, none)

/-- Model of `runAutomationCycle()`: the `isRunning` guard drops the trigger when a
cycle is in flight; otherwise `beginCycle`, the `try` block, the `catch`
(`stats.failedPosts++` on an escaped exception, which is never
re-thrown), and the `finally` (`isRunning = false`). -/
def runAutomationCycle (env : CycleEnv) (s : ServiceState) : ServiceState :=
  if s.isRunning then s
  else
    let (s1, err) := cycleBody env (beginCycle env s)
    let s2 := match err with
      | some _ => { s1 with failedPosts := s1.failedPosts + 1 }
      | none => s1
    { s2 with isRunning := false }

/-! ## Theorems -/

/-- Any url just marked as processed is seen as processed. -/
theorem isNewsProcessed_markNewsAsProcessed (db : DB) (u t : String) :
    isNewsProcessed (markNewsAsProcessed db u t) u = true := by
  unfold markNewsAsProcessed
  by_cases h : isNewsProcessed db u
  · simp [h]
  · simp only [h, if_neg, Bool.false_eq_true, if_false]
    simp [isNewsProcessed]

/-- A url not seen as processed has no `processed_news` row. -/
theorem processedNewsCount_eq_zero_of_not_processed (db : DB) (u : String)
    (h : isNewsProcessed db u = false) : processedNewsCount db u = 0 := by
  simp only [isNewsProcessed, List.any_eq_false, decide_eq_true_eq] at h
  simp only [processedNewsCount, List.length_eq_zero, List.filter_eq_nil_iff]
  intro r hr
  simpa using h r hr

/-- Marking an already processed url leaves the database unchanged. -/
theorem markNewsAsProcessed_noop (db : DB) (u t : String)
    (h : isNewsProcessed db u = true) :
    markNewsAsProcessed db u t = db := by
  simp [markNewsAsProcessed, h]

/--
C8: with the default minimum interval of one hour, after a successful
publish to a platform is recorded at time `t`, the `canPost` check for
that platform at a later time `tl` returns true iff at least one hour has
elapsed; in particular a check less than one hour after the recorded
publish returns false.
-/
theorem canPost_iff_minInterval_elapsed (st : SMState) (p : Platform)
    (t tl : Nat) (h : t < tl) :
    (canPost (recordPost st p t) p tl = true ↔ minInterval ≤ tl - t) ∧
    (tl - t < minInterval → canPost (recordPost st p t) p tl = false) := by
  have hlast : (recordPost st p t).lastPostTime p = t := by
    simp [recordPost]
  constructor
  · simp [canPost, hlast]
  · intro hlt
    simp [canPost, hlast]
    omega

theorem canPost_iff_minInterval_elapsed_witness :
    (5 : Nat) < 6 ∧
    canPost (recordPost ⟨fun _ => 0⟩ Platform.facebook 5) Platform.facebook 6
      = false :=
  ⟨by decide,
   (canPost_iff_minInterval_elapsed ⟨fun _ => 0⟩ Platform.facebook 5 6
      (by decide)).2 (by decide)⟩

/--
C9: marking a news url as processed is idempotent — a second
`markNewsAsProcessed` with the same url is a no-op (the model of
`INSERT OR IGNORE` returns normally without changing the table), and when
the url had no `processed_news` row the two marks leave exactly one row
for it.
-/
theorem markNewsAsProcessed_idempotent (db : DB) (u t1 t2 : String) :
    markNewsAsProcessed (markNewsAsProcessed db u t1) u t2
      = markNewsAsProcessed db u t1 ∧
    (processedNewsCount db u = 0 →
      processedNewsCount (markNewsAsProcessed (markNewsAsProcessed db u t1) u t2) u
        = 1) := by
  have hidem : markNewsAsProcessed (markNewsAsProcessed db u t1) u t2
      = markNewsAsProcessed db u t1 :=
    markNewsAsProcessed_noop _ u t2 (isNewsProcessed_markNewsAsProcessed db u t1)
  refine ⟨hidem, fun hzero => ?_⟩
  rw [hidem]
  unfold markNewsAsProcessed
  by_cases h : isNewsProcessed db u
  · exfalso
    simp only [isNewsProcessed, List.any_eq_true, decide_eq_true_eq] at h
    obtain ⟨r, hr, hru⟩ := h
    have hmem : r ∈ db.processedNews.filter fun x => x.newsUrl = u :=
      List.mem_filter.2 ⟨hr, by simpa using hru⟩
    have hpos : 0 < processedNewsCount db u :=
      List.length_pos_of_mem hmem
    omega
  · simp only [h, Bool.false_eq_true, if_false]
    simp only [processedNewsCount, List.filter_append, List.length_append]
    simp only [processedNewsCount] at hzero
    simp [hzero]

theorem markNewsAsProcessed_idempotent_witness :
    markNewsAsProcessed (markNewsAsProcessed ⟨[], []⟩ "u" "T") "u" "T"
      = markNewsAsProcessed (⟨[], []⟩ : DB) "u" "T" ∧
    processedNewsCount
      (markNewsAsProcessed (markNewsAsProcessed ⟨[], []⟩ "u" "T") "u" "T") "u"
      = 1 :=
  ⟨(markNewsAsProcessed_idempotent ⟨[], []⟩ "u" "T" "T").1,
   (markNewsAsProcessed_idempotent ⟨[], []⟩ "u" "T" "T").2 (by decide)⟩

/--
C7: the publish retry loop never propagates a raw exception: its model is
a total function into an outcome list, and when every attempt rejects
(retries exhausted) it returns one failed entry per configured platform —
facebook and instagram — each carrying the message of the caught (last)
error.
-/
theorem publishWithRetry_exhausted_throws
    (round : Nat → Except String (Outcome × Outcome)) (m0 m1 m2 : String)
    (h0 : round 0 = .error m0) (h1 : round 1 = .error m1)
    (h2 : round 2 = .error m2) :
    (publishWithRetry round).1
      = [catchOutcome Platform.facebook m2, catchOutcome Platform.instagram m2] := by
  simp [publishWithRetry, publishLoop, maxRetries, h0, h1, h2]

theorem publishWithRetry_exhausted_throws_witness :
    (publishWithRetry fun _ => .error "boom").1
      = [catchOutcome Platform.facebook "boom",
         catchOutcome Platform.instagram "boom"] :=
  publishWithRetry_exhausted_throws (fun _ => .error "boom")
    "boom" "boom" "boom" rfl rfl rfl

/-- Every resolved round of the publish loop appends, for its attempt
index, exactly the facebook entry followed by the instagram entry to the
invocation trace (the loop calls `postToAllPlatforms`, which always
invokes both platform clients). -/
theorem publishLoop_trace_shape (round : Nat → Except String (Outcome × Outcome))
    (fuel : Nat) :
    ∀ (attempt : Nat) (results : List Outcome) (trace : List (Nat × Platform)),
      ∃ l : List Nat,
        (publishLoop round attempt fuel results trace).2
          = trace ++ l.flatMap fun a =>
              [(a, Platform.facebook), (a, Platform.instagram)] := by
  induction fuel with
  | zero =>
    intro attempt results trace
    exact ⟨[], by simp [publishLoop]⟩
  | succ n ih =>
    intro attempt results trace
    rcases hround : round attempt with e | ⟨fb, ig⟩
    · simp only [publishLoop, hround]
      by_cases hlt : attempt < maxRetries - 1
      · simpa [hlt] using ih (attempt + 1) results trace
      · exact ⟨[], by simp [hlt]⟩
    · simp only [publishLoop, hround, postToAllPlatforms]
      by_cases hf : (([fb, ig].filter fun r => !r.success)).isEmpty
      · refine ⟨[attempt], ?_⟩
        simp [hf]
      · by_cases hlt : attempt < maxRetries - 1
        · obtain ⟨l2, hl2⟩ := ih (attempt + 1) [fb, ig]
            (trace ++ [(attempt, Platform.facebook), (attempt, Platform.instagram)])
          refine ⟨attempt :: l2, ?_⟩
          simp only [hf, hlt, if_true, Bool.false_eq_true, if_false,
            List.map_cons, List.map_nil]
          rw [hl2]
          simp [List.flatMap_cons]
        · refine ⟨[attempt], ?_⟩
          simp [hf, hlt]

/--
C2 (amended): the claim as stated fails — the retry loop calls
`postToAllPlatforms` afresh each round with no platform filtering, so a
platform that succeeded in round n is invoked again whenever a round
n+1 runs.  Amended property: whenever any platform is invoked in a
retry round, every configured platform (facebook and instagram) is
invoked in that round — previously successful platforms included.
-/
theorem publishWithRetry_round_invokes_both
    (round : Nat → Except String (Outcome × Outcome)) (n : Nat) (p : Platform)
    (h : (n, p) ∈ (publishWithRetry round).2) :
    (n, Platform.facebook) ∈ (publishWithRetry round).2 ∧
    (n, Platform.instagram) ∈ (publishWithRetry round).2 := by
  obtain ⟨l, hl⟩ := publishLoop_trace_shape round maxRetries 0 [] []
  have hpw : (publishWithRetry round).2
      = l.flatMap fun a => [(a, Platform.facebook), (a, Platform.instagram)] := by
    simpa [publishWithRetry] using hl
  rw [hpw] at h ⊢
  rw [List.mem_flatMap] at h
  obtain ⟨a, ha, hmem⟩ := h
  have han : a = n := by
    simp only [List.mem_cons, List.mem_singleton, List.not_mem_nil,
      or_false] at hmem
    rcases hmem with h1 | h1 <;>
      simpa using congrArg Prod.fst h1.symm
  subst han
  exact ⟨List.mem_flatMap.2 ⟨a, ha, by simp⟩,
         List.mem_flatMap.2 ⟨a, ha, by simp⟩⟩

/-- Fixture: a facebook result object reporting success. -/
def fbSuccess : Outcome :=
  { success := true, platform := .facebook, postId := some "fb_1", error := none }

/-- Fixture: an instagram result object reporting failure. -/
def igFailure : Outcome :=
  { success := false, platform := .instagram, postId := none,
    error := some "ig down" }

/-- Fixture rounds: in round 0 facebook succeeds and instagram fails; every
later round resolves with two fresh result objects (as
`postToAllPlatforms` produces when re-invoked). -/
def mixedRounds : Nat → Except String (Outcome × Outcome) := fun i =>
  if i = 0 then .ok (fbSuccess, igFailure)
  else .ok ({ success := true, platform := .facebook, postId := some "fb_2",
              error := none },
            { success := true, platform := .instagram, postId := some "ig_2",
              error := none })

/-- C2 counterexample: facebook succeeds in round 0, instagram fails, and
the loop still invokes facebook again in round 1 — the claim that a
platform succeeding in round n is never invoked in a later round is
false on the code. -/
theorem publish_retry_reinvokes_successful_platform :
    mixedRounds 0 = .ok (fbSuccess, igFailure) ∧ fbSuccess.success = true ∧
    (0, Platform.facebook) ∈ (publishWithRetry mixedRounds).2 ∧
    (1, Platform.facebook) ∈ (publishWithRetry mixedRounds).2 :=
  ⟨rfl, rfl, by decide, by decide⟩

theorem publishWithRetry_round_invokes_both_witness :
    (1, Platform.facebook) ∈ (publishWithRetry mixedRounds).2 ∧
    (1, Platform.instagram) ∈ (publishWithRetry mixedRounds).2 :=
  publishWithRetry_round_invokes_both mixedRounds 1 Platform.facebook
    (by decide)

/-! ### State and statistics lemmas for the cycle -/

theorem capCatch_stats (env : CycleEnv) (s : ServiceState) (pid : Nat) (m : String) :
    (capCatch env s pid m).1.isRunning = s.isRunning ∧
    (capCatch env s pid m).1.lastRunTime = s.lastRunTime ∧
    (capCatch env s pid m).1.totalRuns = s.totalRuns ∧
    (capCatch env s pid m).1.successfulPosts = s.successfulPosts ∧
    (capCatch env s pid m).1.failedPosts = s.failedPosts ∧
    (capCatch env s pid m).1.duplicatesSkipped = s.duplicatesSkipped := by
  unfold capCatch
  cases env.updateFailedErr <;> simp

theorem createAndPublishPost_stats (env : CycleEnv) (s : ServiceState) (item : NewsItem) :
    (createAndPublishPost env s item).1.successfulPosts = s.successfulPosts ∧
    (createAndPublishPost env s item).1.failedPosts = s.failedPosts ∧
    (createAndPublishPost env s item).1.totalRuns = s.totalRuns ∧
    (createAndPublishPost env s item).1.isRunning = s.isRunning := by
  unfold createAndPublishPost capCatch
  repeat' split
  all_goals try simp
  all_goals split <;> simp

theorem cycleBody_stats (env : CycleEnv) (s : ServiceState) :
    (cycleBody env s).1.totalRuns = s.totalRuns ∧
    (cycleBody env s).1.isRunning = s.isRunning ∧
    (((cycleBody env s).2 = none ∧
      (cycleBody env s).1.successfulPosts = s.successfulPosts ∧
      (cycleBody env s).1.failedPosts = s.failedPosts) ∨
     ((cycleBody env s).2 = none ∧
      (cycleBody env s).1.successfulPosts = s.successfulPosts + 1 ∧
      (cycleBody env s).1.failedPosts = s.failedPosts) ∨
     ((cycleBody env s).2 = none ∧
      (cycleBody env s).1.successfulPosts = s.successfulPosts ∧
      (cycleBody env s).1.failedPosts = s.failedPosts + 1) ∨
     ((∃ e, (cycleBody env s).2 = some e) ∧
      (cycleBody env s).1.successfulPosts = s.successfulPosts ∧
      (cycleBody env s).1.failedPosts = s.failedPosts)) := by
  unfold cycleBody
  rcases hrc : env.recentCount with e | n
  · exact ⟨rfl, rfl, Or.inr (Or.inr (Or.inr ⟨⟨e, rfl⟩, rfl, rfl⟩))⟩
  · dsimp only
    by_cases hq : maxPostsPerDay ≤ n
    · rw [if_pos hq]
      exact ⟨rfl, rfl, Or.inl ⟨rfl, rfl, rfl⟩⟩
    · rw [if_neg hq]
      cases hnews : getUniqueNewsItem env.newsFetch s.db with
      | none =>
        exact ⟨rfl, rfl, Or.inl ⟨rfl, rfl, rfl⟩⟩
      | some item =>
        have hstats := createAndPublishPost_stats env s item
        rcases hcap : createAndPublishPost env s item with ⟨s1, r⟩
        rw [hcap] at hstats
        simp only at hstats
        obtain ⟨hsp, hfp, htr, hir⟩ := hstats
        dsimp only
        rw [hcap]
        cases r with
        | escaped e =>
          exact ⟨htr, hir, Or.inr (Or.inr (Or.inr ⟨⟨e, rfl⟩, hsp, hfp⟩))⟩
        | returned success =>
          cases success
          · exact ⟨htr, hir,
              Or.inr (Or.inr (Or.inl ⟨rfl, by simp [hsp], by simp [hfp]⟩))⟩
          · exact ⟨htr, hir,
              Or.inr (Or.inl ⟨rfl, by simp [hsp], by simp [hfp]⟩)⟩
theorem runAutomationCycle_dropped (env : CycleEnv) (s : ServiceState)
    (h : s.isRunning = true) : runAutomationCycle env s = s := by
  simp [runAutomationCycle, h]

theorem runAutomationCycle_body_none (env : CycleEnv) (s s1 : ServiceState)
    (hrun : s.isRunning = false)
    (hbody : cycleBody env (beginCycle env s) = (s1, none)) :
    runAutomationCycle env s = { s1 with isRunning := false } := by
  unfold runAutomationCycle
  simp only [hrun, Bool.false_eq_true, if_false]
  rw [hbody]

theorem cycleBody_quota (env : CycleEnv) (s : ServiceState) (n : Nat)
    (hrc : env.recentCount = .ok n) (hq : maxPostsPerDay ≤ n) :
    cycleBody env s = (s, none) := by
  unfold cycleBody
  rw [hrc]
  dsimp only
  rw [if_pos hq]

theorem cycleBody_no_news (env : CycleEnv) (s : ServiceState) (n : Nat)
    (hrc : env.recentCount = .ok n) (hlt : n < maxPostsPerDay)
    (hnone : getUniqueNewsItem env.newsFetch s.db = none) :
    cycleBody env s = (s, none) := by
  unfold cycleBody
  rw [hrc]
  dsimp only
  rw [if_neg (not_le.2 hlt), hnone]

theorem runAutomationCycle_not_running (env : CycleEnv) (s : ServiceState)
    (h : s.isRunning = false) :
    (runAutomationCycle env s).totalRuns = s.totalRuns + 1 ∧
    (runAutomationCycle env s).isRunning = false ∧
    (((runAutomationCycle env s).successfulPosts = s.successfulPosts ∧
      (runAutomationCycle env s).failedPosts = s.failedPosts) ∨
     ((runAutomationCycle env s).successfulPosts = s.successfulPosts + 1 ∧
      (runAutomationCycle env s).failedPosts = s.failedPosts) ∨
     ((runAutomationCycle env s).successfulPosts = s.successfulPosts ∧
      (runAutomationCycle env s).failedPosts = s.failedPosts + 1)) := by
  have hb := cycleBody_stats env (beginCycle env s)
  unfold runAutomationCycle
  simp only [h, Bool.false_eq_true, if_false]
  rcases hbody : cycleBody env (beginCycle env s) with ⟨s1, err⟩
  rw [hbody] at hb
  simp only at hb
  obtain ⟨htr, hirun, hdisj⟩ := hb
  have hbtr : (beginCycle env s).totalRuns = s.totalRuns + 1 := rfl
  have hbsp : (beginCycle env s).successfulPosts = s.successfulPosts := rfl
  have hbfp : (beginCycle env s).failedPosts = s.failedPosts := rfl
  dsimp only
  cases err with
  | none =>
    rcases hdisj with ⟨-, hsp, hfp⟩ | ⟨-, hsp, hfp⟩ | ⟨-, hsp, hfp⟩ | ⟨⟨e, he⟩, -, -⟩
    · exact ⟨by simp [htr, hbtr], by trivial,
        Or.inl ⟨by simp [hsp, hbsp], by simp [hfp, hbfp]⟩⟩
    · exact ⟨by simp [htr, hbtr], by trivial,
        Or.inr (Or.inl ⟨by simp [hsp, hbsp], by simp [hfp, hbfp]⟩)⟩
    · exact ⟨by simp [htr, hbtr], by trivial,
        Or.inr (Or.inr ⟨by simp [hsp, hbsp], by simp [hfp, hbfp]⟩)⟩
    · exact absurd he (by simp)
  | some e0 =>
    rcases hdisj with ⟨he, -, -⟩ | ⟨he, -, -⟩ | ⟨he, -, -⟩ | ⟨-, hsp, hfp⟩
    · exact absurd he (by simp)
    · exact absurd he (by simp)
    · exact absurd he (by simp)
    · exact ⟨by simp [htr, hbtr], by trivial,
        Or.inr (Or.inr ⟨by simp [hsp, hbsp], by simp [hfp, hbfp]⟩)⟩

/-! ### Claim theorems over the cycle -/

/-- Fixture: an instagram result object reporting success. -/
def igSuccess : Outcome :=
  { success := true, platform := .instagram, postId := some "ig_1", error := none }

/-- Fixture: a facebook result object reporting failure. -/
def fbFailure : Outcome :=
  { success := false, platform := .facebook, postId := none,
    error := some "fb down" }

/-- Fixture environment: every collaborator resolves, both platforms
succeed, the generated content hashes to H1. -/
def happyEnv : CycleEnv :=
  { now := 1000, recentCount := .ok 0,
    newsFetch := fun _ => .ok ⟨"u1", "T1"⟩,
    genContent := .ok ⟨"cap", "desc", ["#ai", "#news"]⟩,
    contentHashFn := fun _ => "H1",
    genImageText := .ok "overlay",
    createImage := .ok "/img.png",
    insertPostErr := none,
    publishRound := fun _ => .ok (fbSuccess, igSuccess),
    updateStatusErr := none, markProcessedErr := none, updateFailedErr := none }

/-- Fixture environment: the initial `getRecentPosts` call rejects. -/
def dbDownEnv : CycleEnv := { happyEnv with recentCount := .error "db down" }

/-- Fixture environment: every publish round fails on both platforms. -/
def allFailEnv : CycleEnv :=
  { happyEnv with publishRound := fun _ => .ok (fbFailure, igFailure) }

/-- Fixture environment: every news fetch rejects, so selection exhausts. -/
def exhaustEnv : CycleEnv :=
  { happyEnv with newsFetch := fun _ => .error "no news" }

/-- Fixture state: the posts table already holds a row whose content hash
collides with the one `happyEnv` generates. -/
def dupState : ServiceState :=
  { initialState with db :=
      ⟨[{ id := 1, title := "old", content := "old", hashtags := "",
          imagePath := "", newsUrl := "u0", platform := "both",
          status := "published", errorMessage := none, contentHash := "H1" }],
        []⟩ }

/--
C4: a trigger while `isRunning` is true returns immediately as a no-op:
no pipeline stage executes and the whole service state — every
statistics counter, `lastRunTime`, the database — is unchanged by the
second trigger.
-/
theorem trigger_while_running_is_noop (env : CycleEnv) (s : ServiceState)
    (h : s.isRunning = true) : runAutomationCycle env s = s :=
  runAutomationCycle_dropped env s h

theorem trigger_while_running_is_noop_witness :
    runAutomationCycle happyEnv { initialState with isRunning := true }
      = { initialState with isRunning := true } :=
  trigger_while_running_is_noop happyEnv _ rfl

/--
C5: every exception escaping the try block of the cycle is caught at the
cycle boundary: `failedPosts` is incremented by exactly one, `isRunning`
is cleared by the finally, and the cycle returns a plain state — the
model never re-throws (its result type is a state, not an exception).
-/
theorem cycle_boundary_catches_exception (env : CycleEnv) (s s1 : ServiceState)
    (e : String) (hrun : s.isRunning = false)
    (hbody : cycleBody env (beginCycle env s) = (s1, some e)) :
    runAutomationCycle env s
      = { s1 with failedPosts := s1.failedPosts + 1, isRunning := false } ∧
    (runAutomationCycle env s).failedPosts = s.failedPosts + 1 ∧
    (runAutomationCycle env s).isRunning = false := by
  have hb := cycleBody_stats env (beginCycle env s)
  rw [hbody] at hb
  simp only at hb
  obtain ⟨-, -, hdisj⟩ := hb
  have hfp : s1.failedPosts = s.failedPosts := by
    rcases hdisj with ⟨he, -, -⟩ | ⟨he, -, -⟩ | ⟨he, -, -⟩ | ⟨-, -, hfp⟩
    · exact absurd he (by simp)
    · exact absurd he (by simp)
    · exact absurd he (by simp)
    · exact hfp
  have heq : runAutomationCycle env s
      = { s1 with failedPosts := s1.failedPosts + 1, isRunning := false } := by
    unfold runAutomationCycle
    simp only [hrun, Bool.false_eq_true, if_false]
    rw [hbody]
  exact ⟨heq, by rw [heq]; simp [hfp], by rw [heq]⟩

theorem cycle_boundary_catches_exception_witness :
    runAutomationCycle dbDownEnv initialState
      = { beginCycle dbDownEnv initialState with
          failedPosts := (beginCycle dbDownEnv initialState).failedPosts + 1,
          isRunning := false } ∧
    (runAutomationCycle dbDownEnv initialState).failedPosts
      = initialState.failedPosts + 1 ∧
    (runAutomationCycle dbDownEnv initialState).isRunning = false :=
  cycle_boundary_catches_exception dbDownEnv initialState
    (beginCycle dbDownEnv initialState) "db down" rfl rfl

/-- A successful selection is never an already-processed url. -/
theorem selectLoop_not_processed (fetch : Nat → Except String NewsItem)
    (db : DB) :
    ∀ (fuel i : Nat) (item : NewsItem),
      selectLoop fetch db i fuel = some item →
      isNewsProcessed db item.url = false := by
  intro fuel
  induction fuel with
  | zero =>
    intro i item h
    simp [selectLoop] at h
  | succ n ih =>
    intro i item h
    unfold selectLoop at h
    rcases hf : fetch i with e | it
    · rw [hf] at h
      exact ih (i + 1) item h
    · rw [hf] at h
      dsimp only at h
      by_cases hp : isNewsProcessed db it.url = true
      · rw [if_pos hp] at h
        exact ih (i + 1) item h
      · rw [if_neg hp] at h
        injection h with h2
        subst h2
        simpa using hp

/-- The selection loop consults the fetch oracle only inside its attempt
window. -/
theorem selectLoop_congr (db : DB) :
    ∀ (fuel : Nat) (fetch fetchB : Nat → Except String NewsItem) (i : Nat),
      (∀ j, i ≤ j → j < i + fuel → fetch j = fetchB j) →
      selectLoop fetch db i fuel = selectLoop fetchB db i fuel := by
  intro fuel
  induction fuel with
  | zero => intro fetch fetchB i hj; rfl
  | succ n ih =>
    intro fetch fetchB i hj
    have hfi : fetch i = fetchB i := hj i le_rfl (by omega)
    unfold selectLoop
    rw [← hfi]
    rcases hf : fetch i with e | it
    · exact ih fetch fetchB (i + 1) fun j h1 h2 => hj j (by omega) (by omega)
    · dsimp only
      by_cases hp : isNewsProcessed db it.url = true
      · simp only [if_pos hp]
        exact ih fetch fetchB (i + 1) fun j h1 h2 => hj j (by omega) (by omega)
      · simp only [if_neg hp]

/--
C6: news selection never returns an already-processed url; the result
consults at most the first ten fetch attempts; and a cycle whose
selection exhausts (and whose daily-limit check passed) aborts with both
`failedPosts` and `successfulPosts` unchanged.
-/
theorem news_selection_sound :
    (∀ (fetch : Nat → Except String NewsItem) (db : DB) (item : NewsItem),
        getUniqueNewsItem fetch db = some item →
        isNewsProcessed db item.url = false) ∧
    (∀ (fetch fetchB : Nat → Except String NewsItem) (db : DB),
        (∀ i, i < maxSelectionAttempts → fetch i = fetchB i) →
        getUniqueNewsItem fetch db = getUniqueNewsItem fetchB db) ∧
    (∀ (env : CycleEnv) (s : ServiceState) (n : Nat),
        s.isRunning = false → env.recentCount = .ok n → n < maxPostsPerDay →
        getUniqueNewsItem env.newsFetch s.db = none →
        (runAutomationCycle env s).failedPosts = s.failedPosts ∧
        (runAutomationCycle env s).successfulPosts = s.successfulPosts) := by
  refine ⟨?_, ?_, ?_⟩
  · intro fetch db item h
    exact selectLoop_not_processed fetch db maxSelectionAttempts 0 item h
  · intro fetch fetchB db h
    exact selectLoop_congr db maxSelectionAttempts fetch fetchB 0
      fun j h1 h2 => h j (by simpa using h2)
  · intro env s n hrun hrc hlt hnone
    have hbody : cycleBody env (beginCycle env s) = (beginCycle env s, none) :=
      cycleBody_no_news env (beginCycle env s) n hrc hlt hnone
    rw [runAutomationCycle_body_none env s (beginCycle env s) hrun hbody]
    exact ⟨rfl, rfl⟩

theorem news_selection_sound_witness :
    (runAutomationCycle exhaustEnv initialState).failedPosts
        = initialState.failedPosts ∧
    (runAutomationCycle exhaustEnv initialState).successfulPosts
        = initialState.successfulPosts :=
  news_selection_sound.2.2 exhaustEnv initialState 0 rfl rfl (by decide) rfl

/-- The duplicate-content branch of the cycle body: bump
`duplicatesSkipped`, return `success:false`, then the cycle counts one
failed post. -/
theorem cycleBody_duplicate (env : CycleEnv) (s : ServiceState)
    (item : NewsItem) (content : Content) (n : Nat)
    (hrc : env.recentCount = .ok n) (hlt : n < maxPostsPerDay)
    (hsel : getUniqueNewsItem env.newsFetch s.db = some item)
    (hgc : env.genContent = .ok content)
    (hdup : isContentDuplicate s.db
        (env.contentHashFn (content.shortCaption ++ content.longDescription))
      = true) :
    cycleBody env s
      = ({ s with duplicatesSkipped := s.duplicatesSkipped + 1,
                  failedPosts := s.failedPosts + 1 }, none) := by
  unfold cycleBody createAndPublishPost
  rw [hrc]
  dsimp only
  rw [if_neg (not_le.2 hlt), hsel]
  dsimp only
  rw [hgc]
  dsimp only
  rw [if_pos hdup]
  rfl

/--
C3 (amended): the claim fails on the code in one conjunct — a duplicate
cycle does increment `duplicatesSkipped` by one, inserts no Post row and
creates no ProcessedNewsRecord, but because `createAndPublishPost`
returns `success:false` for a duplicate, the cycle also increments
`failedPosts` by one (the claim said `failedPosts` is unchanged).
-/
theorem duplicate_content_cycle (env : CycleEnv) (s : ServiceState)
    (item : NewsItem) (content : Content) (n : Nat)
    (hrun : s.isRunning = false)
    (hrc : env.recentCount = .ok n) (hlt : n < maxPostsPerDay)
    (hsel : getUniqueNewsItem env.newsFetch s.db = some item)
    (hgc : env.genContent = .ok content)
    (hdup : isContentDuplicate s.db
        (env.contentHashFn (content.shortCaption ++ content.longDescription))
      = true) :
    (runAutomationCycle env s).duplicatesSkipped = s.duplicatesSkipped + 1 ∧
    (runAutomationCycle env s).db = s.db ∧
    (runAutomationCycle env s).successfulPosts = s.successfulPosts ∧
    (runAutomationCycle env s).failedPosts = s.failedPosts + 1 := by
  have hbody := cycleBody_duplicate env (beginCycle env s) item content n
    hrc hlt hsel hgc hdup
  rw [runAutomationCycle_body_none env s _ hrun hbody]
  exact ⟨rfl, rfl, rfl, rfl⟩

/-- C3 counterexample: on the fixture duplicate cycle, `failedPosts` is
incremented — refuting the claim that a duplicate leaves it unchanged. -/
theorem duplicate_cycle_increments_failedPosts :
    (runAutomationCycle happyEnv dupState).duplicatesSkipped
        = dupState.duplicatesSkipped + 1 ∧
    (runAutomationCycle happyEnv dupState).db = dupState.db ∧
    (runAutomationCycle happyEnv dupState).failedPosts ≠ dupState.failedPosts ∧
    (runAutomationCycle happyEnv dupState).failedPosts
        = dupState.failedPosts + 1 := by
  refine ⟨?_, ?_, ?_, ?_⟩ <;> decide

theorem duplicate_content_cycle_witness :
    (runAutomationCycle happyEnv dupState).duplicatesSkipped
        = dupState.duplicatesSkipped + 1 ∧
    (runAutomationCycle happyEnv dupState).db = dupState.db ∧
    (runAutomationCycle happyEnv dupState).successfulPosts
        = dupState.successfulPosts ∧
    (runAutomationCycle happyEnv dupState).failedPosts
        = dupState.failedPosts + 1 :=
  duplicate_content_cycle happyEnv dupState ⟨"u1", "T1"⟩
    ⟨"cap", "desc", ["#ai", "#news"]⟩ 0 rfl rfl (by decide) rfl rfl (by decide)

/-- Marking a news url as processed never touches the posts table. -/
theorem markNewsAsProcessed_posts (db : DB) (u t : String) :
    (markNewsAsProcessed db u t).posts = db.posts := by
  unfold markNewsAsProcessed
  split <;> rfl

/--
C1 (amended): the persisted aggregate status is a dichotomy, not the
claimed trichotomy — `published` when every platform outcome succeeded,
else `partial_failure` (also when no outcome succeeded); the `failed`
status is only written by the exception path of `createAndPublishPost`.
-/
theorem persisted_status_dichotomy (env : CycleEnv) (s : ServiceState)
    (item : NewsItem) (content : Content) (imageText imagePath : String)
    (hgc : env.genContent = .ok content)
    (hnd : isContentDuplicate s.db
        (env.contentHashFn (content.shortCaption ++ content.longDescription))
      = false)
    (hgit : env.genImageText = .ok imageText)
    (hci : env.createImage = .ok imagePath)
    (hins : env.insertPostErr = none)
    (hupd : env.updateStatusErr = none)
    (hmark : env.markProcessedErr = none) :
    ∃ r ∈ (createAndPublishPost env s item).1.db.posts,
      r.id = s.db.posts.length + 1 ∧
      r.status
        = if ((publishWithRetry env.publishRound).1.all fun o => o.success)
            = true
          then "published" else "partial_failure" := by
  unfold createAndPublishPost
  rw [hgc]
  dsimp only
  rw [if_neg (by rw [hnd]; exact Bool.false_ne_true)]
  rw [hgit]
  dsimp only
  rw [hci]
  dsimp only
  rw [hins]
  dsimp only
  rw [hupd]
  dsimp only
  rw [hmark]
  dsimp only
  rw [markNewsAsProcessed_posts]
  simp only [updatePostStatus, insertPost, List.map_append, List.map_cons,
    List.map_nil]
  refine ⟨_, List.mem_append_right _ (List.mem_singleton_self _), ?_, ?_⟩
  · simp
  · simp


/-- C1 counterexample: a cycle reaching Publishing in which no platform
outcome succeeded persists status `partial_failure`, not the claimed
`failed`. -/
theorem no_success_still_partial_failure :
    ((publishWithRetry allFailEnv.publishRound).1.all fun o => !o.success)
        = true ∧
    (runAutomationCycle allFailEnv initialState).db.posts.map (fun r => r.status)
        = ["partial_failure"] := by
  exact ⟨by decide, by decide⟩

theorem persisted_status_dichotomy_witness :
    ∃ r ∈ (createAndPublishPost allFailEnv initialState ⟨"u1", "T1"⟩).1.db.posts,
      r.id = initialState.db.posts.length + 1 ∧
      r.status
        = if ((publishWithRetry allFailEnv.publishRound).1.all fun o => o.success)
            = true
          then "published" else "partial_failure" :=
  persisted_status_dichotomy allFailEnv initialState ⟨"u1", "T1"⟩
    ⟨"cap", "desc", ["#ai", "#news"]⟩ "overlay" "/img.png"
    rfl (by decide) rfl rfl rfl rfl rfl

/-- Model of repeated Scheduler triggers: fold the cycle over a list of
per-trigger environments. -/
def runTriggers (envs : List CycleEnv) (s : ServiceState) : ServiceState :=
  envs.foldl (fun st e => runAutomationCycle e st) s

/-- One trigger preserves the statistics invariant. -/
theorem statsInvariant_step (env : CycleEnv) (s : ServiceState)
    (h : s.successfulPosts + s.failedPosts ≤ s.totalRuns) :
    (runAutomationCycle env s).successfulPosts
        + (runAutomationCycle env s).failedPosts
      ≤ (runAutomationCycle env s).totalRuns := by
  by_cases hr : s.isRunning = true
  · rw [runAutomationCycle_dropped env s hr]
    exact h
  · obtain ⟨htr, -, hdisj⟩ :=
      runAutomationCycle_not_running env s (by simpa using hr)
    rcases hdisj with ⟨h1, h2⟩ | ⟨h1, h2⟩ | ⟨h1, h2⟩ <;> omega

/-- Any sequence of triggers preserves the statistics invariant. -/
theorem runTriggers_invariant (envs : List CycleEnv) :
    ∀ s : ServiceState, s.successfulPosts + s.failedPosts ≤ s.totalRuns →
      (runTriggers envs s).successfulPosts + (runTriggers envs s).failedPosts
        ≤ (runTriggers envs s).totalRuns := by
  induction envs with
  | nil => intro s h; exact h
  | cons e rest ih =>
    intro s h
    exact ih (runAutomationCycle e s) (statsInvariant_step e s h)

/--
C10: a dropped trigger changes nothing; a non-dropped trigger increments
`totalRuns` exactly once and at most one of `successfulPosts` /
`failedPosts`; a quota-skipped or selection-exhausted cycle increments
neither; hence after any sequence of triggers from the initial state,
`totalRuns` bounds `successfulPosts + failedPosts`.
-/
theorem cycle_statistics_accounting :
    (∀ (env : CycleEnv) (s : ServiceState), s.isRunning = true →
        runAutomationCycle env s = s) ∧
    (∀ (env : CycleEnv) (s : ServiceState), s.isRunning = false →
        (runAutomationCycle env s).totalRuns = s.totalRuns + 1 ∧
        (((runAutomationCycle env s).successfulPosts = s.successfulPosts ∧
          (runAutomationCycle env s).failedPosts = s.failedPosts) ∨
         ((runAutomationCycle env s).successfulPosts = s.successfulPosts + 1 ∧
          (runAutomationCycle env s).failedPosts = s.failedPosts) ∨
         ((runAutomationCycle env s).successfulPosts = s.successfulPosts ∧
          (runAutomationCycle env s).failedPosts = s.failedPosts + 1))) ∧
    (∀ (env : CycleEnv) (s : ServiceState) (n : Nat), s.isRunning = false →
        env.recentCount = .ok n → maxPostsPerDay ≤ n →
        (runAutomationCycle env s).successfulPosts = s.successfulPosts ∧
        (runAutomationCycle env s).failedPosts = s.failedPosts) ∧
    (∀ (env : CycleEnv) (s : ServiceState) (n : Nat), s.isRunning = false →
        env.recentCount = .ok n → n < maxPostsPerDay →
        getUniqueNewsItem env.newsFetch s.db = none →
        (runAutomationCycle env s).successfulPosts = s.successfulPosts ∧
        (runAutomationCycle env s).failedPosts = s.failedPosts) ∧
    (∀ envs : List CycleEnv,
        (runTriggers envs initialState).successfulPosts
          + (runTriggers envs initialState).failedPosts
          ≤ (runTriggers envs initialState).totalRuns) := by
  refine ⟨runAutomationCycle_dropped, ?_, ?_, ?_, ?_⟩
  · intro env s h
    obtain ⟨htr, -, hdisj⟩ := runAutomationCycle_not_running env s h
    exact ⟨htr, hdisj⟩
  · intro env s n hrun hrc hq
    rw [runAutomationCycle_body_none env s (beginCycle env s) hrun
      (cycleBody_quota env (beginCycle env s) n hrc hq)]
    exact ⟨rfl, rfl⟩
  · intro env s n hrun hrc hlt hnone
    rw [runAutomationCycle_body_none env s (beginCycle env s) hrun
      (cycleBody_no_news env (beginCycle env s) n hrc hlt hnone)]
    exact ⟨rfl, rfl⟩
  · intro envs
    exact runTriggers_invariant envs initialState (by decide)

theorem cycle_statistics_accounting_witness :
    runAutomationCycle happyEnv { initialState with isRunning := true }
        = { initialState with isRunning := true } ∧
    (runTriggers [happyEnv, dbDownEnv, exhaustEnv] initialState).successfulPosts
        + (runTriggers [happyEnv, dbDownEnv, exhaustEnv] initialState).failedPosts
      ≤ (runTriggers [happyEnv, dbDownEnv, exhaustEnv] initialState).totalRuns :=
  ⟨cycle_statistics_accounting.1 happyEnv _ rfl,
   cycle_statistics_accounting.2.2.2.2 [happyEnv, dbDownEnv, exhaustEnv]⟩

end Flashes
